import Mathlib

/-!
Shallow embedding of the layer-based canvas controller in `src/js/canvas.js`
(class `CanvasController`) of the TBG-TattooStudio repository.

Modelling conventions:
* JavaScript numbers are modelled as exact rationals (`ℚ`).
* `Math.hypot` and `Math.PI` are browser/Math primitives; they enter the
  model as an oracle record `JsMath` passed to the functions that use them.
* Canvas pixel resampling (`drawImage` followed by `getImageData`) is a
  browser primitive; each decoded `Image` carries a sampling oracle field
  standing for the browser's resampler.
* DOM-only effects (cursor styles, pointer capture, the observer callbacks
  `onSelectionChange` / `onTattooRemoved` / `onCropStateChange`, and data-URL
  encoding) do not touch the controller's data state and are not modelled.
* The integration-cache key is a `':'`-join of six integers in the source;
  the join is injective on integer components, so it is modelled as a
  six-field record `CacheKey`.
-/

namespace TBG

/-- One pixel as returned by `getImageData`: 0..255 channel values. -/
structure RGB where
  r : Fin 256
  g : Fin 256
  b : Fin 256

/-- A decoded raster image.  `sampleRGB sx sy sw sh dw dh x y` is pixel
`(x, y)` of the `dw × dh` downsampling of the source rectangle
`(sx, sy, sw, sh)` — the result of `drawImage(image, sx, sy, sw, sh, 0, 0,
dw, dh)` followed by `getImageData`.  The resampling algorithm is a browser
primitive, hence an oracle field of the image. -/
structure Image where
  width : ℚ
  height : ℚ
  sampleRGB : ℚ → ℚ → ℚ → ℚ → ℕ → ℕ → ℕ → ℕ → RGB

/-- Browser Math primitives used by the controller. -/
structure JsMath where
  hypot : ℚ → ℚ → ℚ
  pi : ℚ

/-- An axis-aligned rectangle `{x, y, width, height}`. -/
structure Rect where
  x : ℚ
  y : ℚ
  width : ℚ
  height : ℚ
deriving DecidableEq

/-- Per-layer transform record (`this.body` / `this.tattoo`).  The source
gives `body` no `rotation`/`opacity` fields; they are carried here for both
layers and simply never read or written on the body layer. -/
structure Layer where
  x : ℚ
  y : ℚ
  scale : ℚ
  rotation : ℚ
  opacity : ℚ
  width : ℚ
  height : ℚ
  crop : Rect
deriving DecidableEq

/-- The two layer names (`'body' | 'tattoo'`). -/
inductive LayerName
  | body
  | tattoo
deriving DecidableEq

/-- Resize / crop handle identifiers (`'nw' | 'ne' | 'se' | 'sw' | 'n' |
'e' | 's' | 'w' | 'move'`). -/
inductive HandleType
  | nw
  | ne
  | se
  | sw
  | n
  | e
  | s
  | w
  | move
deriving DecidableEq

/-- `mode.includes('w')` on the handle-name strings above. -/
def HandleType.hasW : HandleType → Bool
  | .w | .nw | .sw => true
  | _ => false

/-- `mode.includes('e')` on the handle-name strings above (note that the
string `'move'` contains the letter `'e'`). -/
def HandleType.hasE : HandleType → Bool
  | .e | .ne | .se | .move => true
  | _ => false

/-- `mode.includes('n')` on the handle-name strings above. -/
def HandleType.hasN : HandleType → Bool
  | .n | .nw | .ne => true
  | _ => false

/-- `mode.includes('s')` on the handle-name strings above. -/
def HandleType.hasS : HandleType → Bool
  | .s | .sw | .se => true
  | _ => false

/-- A labelled corner of a layer's bounds. -/
structure Corner where
  x : ℚ
  y : ℚ
  type : HandleType
deriving DecidableEq

/-- Result of `getLayerBounds`. -/
structure Bounds where
  x : ℚ
  y : ℚ
  width : ℚ
  height : ℚ
  corners : List Corner
deriving DecidableEq

/-- `this.state.crop`. -/
structure CropState where
  active : Bool
  layer : Option LayerName
  rect : Option Rect
  mode : Option HandleType
  dragStartX : ℚ
  dragStartY : ℚ
  startRect : Option Rect
deriving DecidableEq

/-- Snapshot `this.state.layerStart`. -/
structure LayerStart where
  x : ℚ
  y : ℚ
  scale : ℚ
deriving DecidableEq

/-- `this.state`. -/
structure InteractionState where
  selectedLayer : Option LayerName
  dragging : Bool
  resizing : Bool
  dragStartX : ℚ
  dragStartY : ℚ
  layerStart : LayerStart
  crop : CropState
deriving DecidableEq

/-- The quantized integration-cache key: `[round(sx/6), round(sy/6),
round(sw/6), round(sh/6), mapWidth, mapHeight].join(':')`. -/
structure CacheKey where
  sx : ℤ
  sy : ℤ
  sw : ℤ
  sh : ℤ
  mw : ℤ
  mh : ℤ
deriving DecidableEq

/-- The alpha raster written into the integration canvas: `alpha` lists the
pixel alphas row-major (rgb channels are all written 0). -/
structure MapData where
  mw : ℕ
  mh : ℕ
  alpha : List ℤ
deriving DecidableEq

/-- `this.integrationCache`.  The source's initial/reset key is `''`, which
never equals a computed key; it is modelled as `none`. -/
structure IntegrationCache where
  key : Option CacheKey
  map : Option MapData
  lightX : ℚ
  lightY : ℚ
  luminance : ℚ
deriving DecidableEq

/-- The reset value `{key: '', map: null, lightX: -0.2, lightY: -0.8,
luminance: 0.56}`. -/
def emptyIntegrationCache : IntegrationCache :=
  { key := none, map := none, lightX := -0.2, lightY := -0.8, luminance := 0.56 }

/-- The controller's data state (canvas backing-store size, the two images,
the two layer transforms, the interaction state and the integration cache). -/
structure CState where
  canvasWidth : ℚ
  canvasHeight : ℚ
  bodyImage : Option Image
  tattooImage : Option Image
  body : Layer
  tattoo : Layer
  state : InteractionState
  integrationCache : IntegrationCache

/-- `this.clamp(value, min, max) = Math.max(min, Math.min(max, value))`. -/
def clamp (value lo hi : ℚ) : ℚ :=
  max lo (min hi value)

/-- `getLayerTransform(layerName)`. -/
def getLayerTransform (s : CState) : LayerName → Layer
  | .body => s.body
  | .tattoo => s.tattoo

/-- Update the layer record aliased by `getLayerTransform(layerName)` (the
source mutates through that alias). -/
def setLayerTransform (s : CState) (l : LayerName) (f : Layer → Layer) : CState :=
  match l with
  | .body => { s with body := f s.body }
  | .tattoo => { s with tattoo := f s.tattoo }

/-- `getLayerCrop(layerName)`: the layer's crop with JavaScript falsy
(`|| layer.width`) fallbacks on zero width/height (the `crop` field itself
is always an object in the source constructor, so its `||` fallback never
fires). -/
def getLayerCrop (s : CState) (l : LayerName) : Rect :=
  let layer := getLayerTransform s l
  { x := layer.crop.x
    y := layer.crop.y
    width := if layer.crop.width = 0 then layer.width else layer.crop.width
    height := if layer.crop.height = 0 then layer.height else layer.crop.height }

/-- `getLayerDisplaySize(layerName)`. -/
def getLayerDisplaySize (s : CState) (l : LayerName) : ℚ × ℚ :=
  let layer := getLayerTransform s l
  let crop := getLayerCrop s l
  (crop.width * layer.scale, crop.height * layer.scale)

/-- `hasLayer(layerName)`. -/
def hasLayer (s : CState) : LayerName → Bool
  | .body => s.bodyImage.isSome
  | .tattoo => s.tattooImage.isSome

/-- `getLayerBounds(layerName)`: `null` when the layer has no image. -/
def getLayerBounds (s : CState) (l : LayerName) : Option Bounds :=
  if hasLayer s l then
    let t := getLayerTransform s l
    let size := getLayerDisplaySize s l
    let width := size.1
    let height := size.2
    let x := t.x - width / 2
    let y := t.y - height / 2
    some
      { x := x, y := y, width := width, height := height
        corners :=
          [ { x := x, y := y, type := .nw }
          , { x := x + width, y := y, type := .ne }
          , { x := x + width, y := y + height, type := .se }
          , { x := x, y := y + height, type := .sw } ] }
  else
    none

/-- `isInsideLayer(layerName, x, y)`. -/
def isInsideLayer (s : CState) (l : LayerName) (x y : ℚ) : Bool :=
  match getLayerBounds s l with
  | none => false
  | some b =>
      decide (b.x ≤ x) && decide (x ≤ b.x + b.width) &&
      decide (b.y ≤ y) && decide (y ≤ b.y + b.height)

/-- `getHandleAt(layerName, x, y)`: first corner handle (±12) hit, only on
the selected layer. -/
def getHandleAt (s : CState) (l : LayerName) (x y : ℚ) : Option HandleType :=
  if s.state.selectedLayer ≠ some l then none
  else
    match getLayerBounds s l with
    | none => none
    | some b =>
        let size : ℚ := 12
        (b.corners.find? fun c =>
          decide (c.x - size ≤ x) && decide (x ≤ c.x + size) &&
          decide (c.y - size ≤ y) && decide (y ≤ c.y + size)).map Corner.type

/-- Result record of `getSkinToneStats`. -/
structure ToneStats where
  luminance : ℚ
  saturation : ℚ
  warmth : ℚ
deriving DecidableEq

/-- The fixed neutral default `{luminance: 0.58, saturation: 0.3, warmth: 0.08}`. -/
def toneNeutralDefault : ToneStats :=
  { luminance := 0.58, saturation := 0.3, warmth := 0.08 }

/-- The transform record handed to `drawTattooLayer` / `getSkinToneStats` /
`getIntegrationMap`: either `this.tattoo` itself (live render) or the record
built by `getTattooTransformForImageSpace` (export). -/
structure TattooTransform where
  x : ℚ
  y : ℚ
  width : ℚ
  height : ℚ
  scale : ℚ
  crop : Rect
deriving DecidableEq

/-- The live-render transform argument: `this.tattoo` viewed as a transform
record (duck typing in the source). -/
def TattooTransform.ofLayer (t : Layer) : TattooTransform :=
  { x := t.x, y := t.y, width := t.width, height := t.height, scale := t.scale, crop := t.crop }

/-- A body reference record with all fields resolved (`cropX`/`cropY` after
the source's `bodyRef.cropX || 0` defaulting). -/
structure BodyRef where
  x : ℚ
  y : ℚ
  width : ℚ
  height : ℚ
  scale : ℚ
  cropX : ℚ
  cropY : ℚ
deriving DecidableEq

/-- The `bodyRef` argument as passed in the source: either `this.body` by
reference (live render; `bodyRef === this.body` holds and the missing
`cropX`/`cropY` fields read as `undefined`, so `|| 0` gives 0), or the
explicit record literal built in `exportImage`. -/
inductive BodyRefArg
  | current
  | explicit (ref : BodyRef)

/-- Field resolution of a `bodyRef` argument against the current state. -/
def BodyRefArg.resolve (s : CState) : BodyRefArg → BodyRef
  | .current =>
      { x := s.body.x, y := s.body.y, width := s.body.width, height := s.body.height
        scale := s.body.scale, cropX := 0, cropY := 0 }
  | .explicit r => r

/-- HSL lightness `l = (max + min) / 2` of a pixel with channels scaled to
`[0, 1]`. -/
def hslLightness (p : RGB) : ℚ :=
  let r := (p.r.val : ℚ) / 255
  let g := (p.g.val : ℚ) / 255
  let b := (p.b.val : ℚ) / 255
  (max r (max g b) + min r (min g b)) / 2

/-- HSL saturation `max === min ? 0 : (max - min) / (1 - |2l - 1|)`. -/
def hslSaturation (p : RGB) : ℚ :=
  let r := (p.r.val : ℚ) / 255
  let g := (p.g.val : ℚ) / 255
  let b := (p.b.val : ℚ) / 255
  let mx := max r (max g b)
  let mn := min r (min g b)
  let l := (mx + mn) / 2
  if mx = mn then 0 else (mx - mn) / (1 - |2 * l - 1|)

/-- Pixel warmth `r - b` (channels scaled to `[0, 1]`). -/
def pixelWarmth (p : RGB) : ℚ :=
  (p.r.val : ℚ) / 255 - (p.b.val : ℚ) / 255

/-- `getSkinToneStats(transform, bodyRef)`: mean HSL lightness, saturation
and warmth over the 32×32 downsample of the clamped sample window; the
neutral default when no body image is attached or `bodyRef.scale <= 0`
(`this.toneSampleCtx` is created in the constructor and is always present). -/
def getSkinToneStats (s : CState) (t : TattooTransform) (arg : BodyRefArg) : ToneStats :=
  match s.bodyImage with
  | none => toneNeutralDefault
  | some img =>
    let ref := arg.resolve s
    if ref.scale ≤ 0 then toneNeutralDefault
    else
      let centerX := ref.cropX + ((t.x - ref.x) / ref.scale) + (ref.width / 2)
      let centerY := ref.cropY + ((t.y - ref.y) / ref.scale) + (ref.height / 2)
      let sampleSize : ℚ := clamp ((round (min ref.width ref.height * 0.12) : ℤ) : ℚ) 36 220
      let sx := clamp ((round (centerX - sampleSize / 2) : ℤ) : ℚ) 0 (max 0 (img.width - 1))
      let sy := clamp ((round (centerY - sampleSize / 2) : ℤ) : ℚ) 0 (max 0 (img.height - 1))
      let sw := clamp sampleSize 1 (img.width - sx)
      let sh := clamp sampleSize 1 (img.height - sy)
      let pix := fun (x y : ℕ) => img.sampleRGB sx sy sw sh 32 32 x y
      let sumL := ∑ y ∈ Finset.range 32, ∑ x ∈ Finset.range 32, hslLightness (pix x y)
      let sumSat := ∑ y ∈ Finset.range 32, ∑ x ∈ Finset.range 32, hslSaturation (pix x y)
      let sumWarm := ∑ y ∈ Finset.range 32, ∑ x ∈ Finset.range 32, pixelWarmth (pix x y)
      -- `count` counts the 32×32 sampled pixels; `getImageData(0,0,32,32)`
      -- always yields 1024 of them, so the `if (!count)` branch is dead.
      let count : ℚ := 32 * 32
      if count = 0 then toneNeutralDefault
      else
        { luminance := sumL / count, saturation := sumSat / count, warmth := sumWarm / count }

/-- Result record of `getTattooToneFilters`. -/
structure ToneFilters where
  brightness : ℚ
  contrast : ℚ
  saturation : ℚ
deriving DecidableEq

/-- `getTattooToneFilters(transform, bodyRef)`. -/
def getTattooToneFilters (s : CState) (t : TattooTransform) (arg : BodyRefArg) : ToneFilters :=
  let stats := getSkinToneStats s t arg
  { brightness := clamp (0.82 + (stats.luminance * 0.33) + (stats.warmth * 0.08)) 0.78 1.12
    contrast := clamp (1.03 + ((0.56 - stats.luminance) * 0.22)) 0.92 1.18
    saturation := clamp (0.64 + (stats.saturation * 0.46)) 0.58 1.06 }

/-- Result record of `getBodySamplingRect`. -/
structure SampleRect where
  sx : ℚ
  sy : ℚ
  sw : ℚ
  sh : ℚ
  width : ℚ
  height : ℚ
deriving DecidableEq

/-- `getBodySamplingRect(transform, bodyRef)`.  The `bodyRef === this.body`
identity test selects between `getLayerCrop('body')` and the record's own
`cropX`/`cropY`/`width`/`height`; `transform.crop` is always an object at
both call sites, so its `||` fallback never fires. -/
def getBodySamplingRect (s : CState) (img : Image) (t : TattooTransform) (arg : BodyRefArg) :
    SampleRect :=
  let ref := arg.resolve s
  let bodyCrop : Rect :=
    match arg with
    | .current => getLayerCrop s .body
    | .explicit r => { x := r.cropX, y := r.cropY, width := r.width, height := r.height }
  let width := t.crop.width * t.scale
  let height := t.crop.height * t.scale
  let safeScale := if 0 < ref.scale then ref.scale else 1
  let centerX := ((t.x - ref.x) / safeScale) + (bodyCrop.width / 2)
  let centerY := ((t.y - ref.y) / safeScale) + (bodyCrop.height / 2)
  let sampleWidth := max 1 (width / safeScale)
  let sampleHeight := max 1 (height / safeScale)
  let rawX := bodyCrop.x + centerX - (sampleWidth / 2)
  let rawY := bodyCrop.y + centerY - (sampleHeight / 2)
  let sx := clamp rawX 0 (max 0 (img.width - 1))
  let sy := clamp rawY 0 (max 0 (img.height - 1))
  { sx := sx, sy := sy
    sw := clamp sampleWidth 1 (img.width - sx)
    sh := clamp sampleHeight 1 (img.height - sy)
    width := width, height := height }

/-- `this.clamp(Math.round(bodyRect.width / 6), 44, 112)` (an integer). -/
def integrationMapDim (v : ℚ) : ℤ :=
  max 44 (min 112 (round (v / 6)))

/-- The quantized cache key of `getIntegrationMap`. -/
def integrationKey (r : SampleRect) (mwZ mhZ : ℤ) : CacheKey :=
  { sx := round (r.sx / 6), sy := round (r.sy / 6)
    sw := round (r.sw / 6), sh := round (r.sh / 6)
    mw := mwZ, mh := mhZ }

/-- Pixel luminance `r·0.299 + g·0.587 + b·0.114` (channels in `[0, 1]`). -/
def lumaPix (p : RGB) : ℚ :=
  ((p.r.val : ℚ) / 255) * 0.299 + ((p.g.val : ℚ) / 255) * 0.587 + ((p.b.val : ℚ) / 255) * 0.114

/-- The recompute branch of `getIntegrationMap`: luminance field, dominant
light direction, and the edge/shadow alpha raster (border pixels keep the
`createImageData` zero alpha). -/
def computeIntegrationEntry (math : JsMath) (img : Image) (r : SampleRect) (key : CacheKey)
    (mwZ mhZ : ℤ) : IntegrationCache :=
  let mw := mwZ.toNat
  let mh := mhZ.toNat
  let lum := fun (x y : ℕ) => lumaPix (img.sampleRGB r.sx r.sy r.sw r.sh mw mh x y)
  let total := ∑ y ∈ Finset.range mh, ∑ x ∈ Finset.range mw, lum x y
  let leftSum := ∑ y ∈ Finset.range mh, ∑ x ∈ Finset.range mw,
    if (x : ℚ) < (mw : ℚ) / 2 then lum x y else 0
  let rightSum := ∑ y ∈ Finset.range mh, ∑ x ∈ Finset.range mw,
    if (x : ℚ) < (mw : ℚ) / 2 then 0 else lum x y
  let topSum := ∑ y ∈ Finset.range mh, ∑ x ∈ Finset.range mw,
    if (y : ℚ) < (mh : ℚ) / 2 then lum x y else 0
  let bottomSum := ∑ y ∈ Finset.range mh, ∑ x ∈ Finset.range mw,
    if (y : ℚ) < (mh : ℚ) / 2 then 0 else lum x y
  let avgLum := total / ((mw : ℚ) * (mh : ℚ))
  let lightXRaw := rightSum - leftSum
  let lightYRaw := bottomSum - topSum
  -- `Math.hypot(lightXRaw, lightYRaw) || 1`
  let mag0 := math.hypot lightXRaw lightYRaw
  let mag := if mag0 = 0 then 1 else mag0
  let alphaAt := fun (x y : ℕ) =>
    if 1 ≤ x ∧ x + 1 < mw ∧ 1 ≤ y ∧ y + 1 < mh then
      let dx := lum (x + 1) y - lum (x - 1) y
      let dy := lum x (y + 1) - lum x (y - 1)
      let edge := clamp ((|dx| + |dy|) * 2.4) 0 1
      let shadow := clamp ((0.44 - lum x y) * 1.25) 0 0.65
      round (clamp ((edge * 0.8) + (shadow * 0.45)) 0 1 * 255)
    else 0
  { key := some key
    map := some { mw := mw, mh := mh
                  alpha := (List.range (mw * mh)).map fun i => alphaAt (i % mw) (i / mw) }
    lightX := lightXRaw / mag
    lightY := lightYRaw / mag
    luminance := avgLum }

/-- `getIntegrationMap(transform, bodyRef)`, returned as `(result, cache
after the call, whether the map was recomputed)`.  `this.integrationCtx` is
created in the constructor and is always present. -/
def getIntegrationMap (math : JsMath) (s : CState) (t : TattooTransform) (arg : BodyRefArg) :
    IntegrationCache × IntegrationCache × Bool :=
  match s.bodyImage with
  | none => (s.integrationCache, s.integrationCache, false)
  | some img =>
    if (arg.resolve s).scale ≤ 0 then (s.integrationCache, s.integrationCache, false)
    else
      let r := getBodySamplingRect s img t arg
      let mwZ := integrationMapDim r.width
      let mhZ := integrationMapDim r.height
      let key := integrationKey r mwZ mhZ
      if s.integrationCache.key = some key ∧ s.integrationCache.map.isSome then
        (s.integrationCache, s.integrationCache, false)
      else
        let e := computeIntegrationEntry math img r key mwZ mhZ
        (e, e, true)

/-- `render()`.  All drawing goes to the canvas; the only effect on the
modelled data state is the integration-cache update performed inside
`drawTattooLayer → getIntegrationMap` (with `transform = this.tattoo` and
`bodyRef = this.body`) when both images are present. -/
def render (math : JsMath) (s : CState) : CState :=
  if s.bodyImage.isNone then s
  else if s.tattooImage.isSome then
    { s with
      integrationCache := (getIntegrationMap math s (TattooTransform.ofLayer s.tattoo) .current).2.1 }
  else s

/-- `cancelCrop()`: no-op unless a crop is active; resets the crop state
(the `dragStart` point is not reset) and re-renders. -/
def cancelCrop (math : JsMath) (s : CState) : CState :=
  if !s.state.crop.active then s
  else
    render math
      { s with state := { s.state with crop :=
        { active := false, layer := none, rect := none, mode := none
          dragStartX := s.state.crop.dragStartX, dragStartY := s.state.crop.dragStartY
          startRect := none } } }

/-- `setSelectedLayer(layer)`: no-op on reselection; cancels an in-progress
crop on another layer; notifies the observer (unmodelled) and re-renders. -/
def setSelectedLayer (math : JsMath) (s : CState) (l : Option LayerName) : CState :=
  if s.state.selectedLayer = l then s
  else
    let s1 := if s.state.crop.active ∧ s.state.crop.layer ≠ l then cancelCrop math s else s
    render math { s1 with state := { s1.state with selectedLayer := l } }

/-- `beginCrop(layerName = this.state.selectedLayer)`; the argument is the
parameter value after JavaScript default resolution. -/
def beginCrop (math : JsMath) (s : CState) (layerName : Option LayerName) : CState × Bool :=
  match layerName with
  | none => (s, false)
  | some l =>
    if !hasLayer s l then (s, false)
    else
      match getLayerBounds s l with
      | none => (s, false)
      | some bounds =>
        let s1 := { s with state := { s.state with crop :=
          { active := true, layer := some l
            rect := some { x := bounds.x, y := bounds.y, width := bounds.width, height := bounds.height }
            mode := none
            dragStartX := s.state.crop.dragStartX, dragStartY := s.state.crop.dragStartY
            startRect := none } } }
        (render math s1, true)

/-- `applyCrop()`: converts the pending workspace-space crop rectangle into
native image space against the current crop, clamps it into the image,
stores it, recentres the layer on the pending rectangle's midpoint, resets
the integration cache when the body layer was cropped, leaves crop mode and
re-renders. -/
def applyCrop (math : JsMath) (s : CState) : CState × Bool :=
  match s.state.crop.active, s.state.crop.layer, s.state.crop.rect with
  | true, some layerName, some cropRect =>
    let layer := getLayerTransform s layerName
    match getLayerBounds s layerName with
    | none => (cancelCrop math s, false)
    | some bounds =>
      let currentCrop := getLayerCrop s layerName
      let minRatio : ℚ := 0.03
      let rx0 := clamp ((cropRect.x - bounds.x) / bounds.width) 0 1
      let ry0 := clamp ((cropRect.y - bounds.y) / bounds.height) 0 1
      let rx1 := clamp ((cropRect.x + cropRect.width - bounds.x) / bounds.width) 0 1
      let ry1 := clamp ((cropRect.y + cropRect.height - bounds.y) / bounds.height) 0 1
      let nextCropX := currentCrop.x + (currentCrop.width * rx0)
      let nextCropY := currentCrop.y + (currentCrop.height * ry0)
      let nextCropW := max (currentCrop.width * (rx1 - rx0)) (max 1 (layer.width * minRatio))
      let nextCropH := max (currentCrop.height * (ry1 - ry0)) (max 1 (layer.height * minRatio))
      let s1 := setLayerTransform s layerName fun t =>
        { t with
          crop :=
            { x := clamp nextCropX 0 (t.width - 1)
              y := clamp nextCropY 0 (t.height - 1)
              width := clamp nextCropW 1 (t.width - nextCropX)
              height := clamp nextCropH 1 (t.height - nextCropY) }
          x := cropRect.x + (cropRect.width / 2)
          y := cropRect.y + (cropRect.height / 2) }
      let s2 := if layerName = .body then { s1 with integrationCache := emptyIntegrationCache } else s1
      let s3 := { s2 with state := { s2.state with crop :=
        { active := false, layer := none, rect := none, mode := none
          dragStartX := s2.state.crop.dragStartX, dragStartY := s2.state.crop.dragStartY
          startRect := none } } }
      (render math s3, true)
  | _, _, _ => (s, false)

/-- `getCropHandleAt(x, y)`: first of the 8 crop handles (±10) hit, then
`'move'` inside the rectangle, else `null`. -/
def getCropHandleAt (s : CState) (x y : ℚ) : Option HandleType :=
  if !s.state.crop.active then none
  else
    match s.state.crop.rect with
    | none => none
    | some r =>
      let hs : ℚ := 10
      let handles : List (HandleType × ℚ × ℚ) :=
        [ (.nw, r.x, r.y)
        , (.ne, r.x + r.width, r.y)
        , (.se, r.x + r.width, r.y + r.height)
        , (.sw, r.x, r.y + r.height)
        , (.n, r.x + (r.width / 2), r.y)
        , (.e, r.x + r.width, r.y + (r.height / 2))
        , (.s, r.x + (r.width / 2), r.y + r.height)
        , (.w, r.x, r.y + (r.height / 2)) ]
      match handles.find? fun h =>
          decide (h.2.1 - hs ≤ x) && decide (x ≤ h.2.1 + hs) &&
          decide (h.2.2 - hs ≤ y) && decide (y ≤ h.2.2 + hs) with
      | some h => some h.1
      | none =>
        if decide (r.x ≤ x) && decide (x ≤ r.x + r.width) &&
            decide (r.y ≤ y) && decide (y ≤ r.y + r.height) then
          some .move
        else
          none

/-- `onPointerDown(event)` after the caller-side `toCanvasPoint` conversion
(the handler only uses the converted canvas-space point). -/
def onPointerDown (math : JsMath) (s : CState) (px py : ℚ) : CState :=
  if s.bodyImage.isNone then s
  else if s.state.crop.active then
    match getCropHandleAt s px py with
    | none => s
    | some handle =>
      { s with state := { s.state with crop :=
        { s.state.crop with mode := some handle, dragStartX := px, dragStartY := py
                            startRect := s.state.crop.rect } } }
  else
    let resized : Option CState :=
      match s.state.selectedLayer with
      | none => none
      | some sel =>
        match getHandleAt s sel px py with
        | none => none
        | some _ =>
          let t := getLayerTransform s sel
          some { s with state := { s.state with resizing := true, dragStartX := px
                                                dragStartY := py
                                                layerStart := { x := t.x, y := t.y, scale := t.scale } } }
    match resized with
    | some s' => s'
    | none =>
      if s.tattooImage.isSome && isInsideLayer s .tattoo px py then
        let s1 := setSelectedLayer math s (some .tattoo)
        { s1 with state := { s1.state with dragging := true, dragStartX := px, dragStartY := py
                                           layerStart := { x := s1.tattoo.x, y := s1.tattoo.y, scale := s1.tattoo.scale } } }
      else if s.bodyImage.isSome && isInsideLayer s .body px py then
        let s1 := setSelectedLayer math s (some .body)
        { s1 with state := { s1.state with dragging := true, dragStartX := px, dragStartY := py
                                           layerStart := { x := s1.body.x, y := s1.body.y, scale := s1.body.scale } } }
      else
        setSelectedLayer math s none

/-- `onPointerMove(event)` after the caller-side point conversion.  Branches
that only set the hover cursor leave the data state unchanged. -/
def onPointerMove (math : JsMath) (s : CState) (px py : ℚ) : CState :=
  if s.bodyImage.isNone then s
  else
    match s.state.crop.active, s.state.crop.layer with
    | true, some cropLayer =>
      match getLayerBounds s cropLayer, s.state.crop.rect with
      | some bounds, some _ =>
        match s.state.crop.mode, s.state.crop.startRect with
        | some mode, some start =>
          let minSize : ℚ := 24
          let dx := px - s.state.crop.dragStartX
          let dy := py - s.state.crop.dragStartY
          let r1 : Rect :=
            if mode = .move then { start with x := start.x + dx, y := start.y + dy }
            else
              let a := if mode.hasW then { start with x := start.x + dx, width := start.width - dx }
                       else start
              let b := if mode.hasE then { a with width := start.width + dx } else a
              let c := if mode.hasN then { b with y := start.y + dy, height := start.height - dy }
                       else b
              if mode.hasS then { c with height := start.height + dy } else c
          let r2 :=
            if r1.width < minSize then
              { r1 with x := if mode.hasW then r1.x - (minSize - r1.width) else r1.x
                        width := minSize }
            else r1
          let r3 :=
            if r2.height < minSize then
              { r2 with y := if mode.hasN then r2.y - (minSize - r2.height) else r2.y
                        height := minSize }
            else r2
          let r4 := { r3 with x := clamp r3.x bounds.x (bounds.x + bounds.width - r3.width)
                              y := clamp r3.y bounds.y (bounds.y + bounds.height - r3.height) }
          let r5 :=
            if mode ≠ .move then
              let a := if r4.x < bounds.x then
                         { r4 with width := r4.width - (bounds.x - r4.x), x := bounds.x }
                       else r4
              let b := if a.y < bounds.y then
                         { a with height := a.height - (bounds.y - a.y), y := bounds.y }
                       else a
              let c := if bounds.x + bounds.width < b.x + b.width then
                         { b with width := (bounds.x + bounds.width) - b.x }
                       else b
              if bounds.y + bounds.height < c.y + c.height then
                { c with height := (bounds.y + bounds.height) - c.y }
              else c
            else r4
          render math { s with state := { s.state with crop := { s.state.crop with rect := some r5 } } }
        | _, _ => s
      | _, _ => s
    | _, _ =>
      match s.state.selectedLayer with
      | some l =>
        if s.state.dragging then
          render math (setLayerTransform s l fun t =>
            { t with x := s.state.layerStart.x + (px - s.state.dragStartX)
                     y := s.state.layerStart.y + (py - s.state.dragStartY) })
        else if s.state.resizing then
          let t := getLayerTransform s l
          let startDistance := math.hypot (s.state.dragStartX - t.x) (s.state.dragStartY - t.y)
          let currentDistance := math.hypot (px - t.x) (py - t.y)
          if 0 < startDistance then
            let nextScale := s.state.layerStart.scale * (currentDistance / startDistance)
            render math (setLayerTransform s l fun u => { u with scale := min 8 (max 0.05 nextScale) })
          else s
        else s
      | none => s

/-- `onPointerUp()`. -/
def onPointerUp (s : CState) : CState :=
  let s1 := { s with state := { s.state with dragging := false, resizing := false } }
  if s1.state.crop.active then
    { s1 with state := { s1.state with crop := { s1.state.crop with mode := none, startRect := none } } }
  else s1

/-- The canvas backing-store size computed by `initCanvasSize` /
`resizeCanvasToContainer` from the measured container rectangle
(`Math.max(900, Math.floor(rect.width || 900))` and
`Math.max(560, Math.floor(rect.height || window.innerHeight * 0.72))`). -/
def nextCanvasSize (containerW containerH innerH : ℚ) : ℚ × ℚ :=
  (((max 900 (Int.floor (if containerW = 0 then 900 else containerW)) : ℤ) : ℚ),
   ((max 560 (Int.floor (if containerH = 0 then innerH * 0.72 else containerH)) : ℤ) : ℚ))

/-- `resizeCanvasToContainer()`.  `containerW`/`containerH` are the measured
container `getBoundingClientRect` dimensions and `innerH` is
`window.innerHeight` (external inputs). -/
def resizeCanvasToContainer (math : JsMath) (s : CState) (containerW containerH innerH : ℚ) :
    CState :=
  let oldWidth := s.canvasWidth
  let oldHeight := s.canvasHeight
  let nextWidth := (nextCanvasSize containerW containerH innerH).1
  let nextHeight := (nextCanvasSize containerW containerH innerH).2
  if nextWidth = oldWidth ∧ nextHeight = oldHeight then s
  else
    let sx := nextWidth / oldWidth
    let sy := nextHeight / oldHeight
    let scaleAdjust := min sx sy
    let s1 := { s with canvasWidth := nextWidth, canvasHeight := nextHeight }
    let s2 :=
      if s1.bodyImage.isSome then
        { s1 with body := { s1.body with x := s1.body.x * sx, y := s1.body.y * sy
                                         scale := s1.body.scale * scaleAdjust } }
      else s1
    let s3 :=
      if s2.tattooImage.isSome then
        { s2 with tattoo := { s2.tattoo with x := s2.tattoo.x * sx, y := s2.tattoo.y * sy
                                             scale := s2.tattoo.scale * scaleAdjust } }
      else s2
    render math s3

/-- `setBodyImage(image)`: installs the skin image, clears the tattoo and
the cache, resyncs the canvas to the container, fits the skin to 82% of the
canvas, centres it and selects it. -/
def setBodyImage (math : JsMath) (s : CState) (image : Image)
    (containerW containerH innerH : ℚ) : CState :=
  let s1 := { s with bodyImage := some image, tattooImage := none }
  let s2 := cancelCrop math s1
  let s3 := { s2 with integrationCache := emptyIntegrationCache }
  let s4 := resizeCanvasToContainer math s3 containerW containerH innerH
  let s5 := { s4 with body := { s4.body with
    width := image.width, height := image.height
    crop := { x := 0, y := 0, width := image.width, height := image.height }
    scale := min ((s4.canvasWidth * 0.82) / image.width) ((s4.canvasHeight * 0.82) / image.height)
    x := s4.canvasWidth / 2, y := s4.canvasHeight / 2 } }
  setSelectedLayer math s5 (some .body)

/-- `setTattooImage(image)`: no-op without a skin image; otherwise installs
the ink image at the skin's centre with the default transform and selects
it. -/
def setTattooImage (math : JsMath) (s : CState) (image : Image) : CState :=
  if s.bodyImage.isNone then s
  else
    let bodyDisplayWidth := s.body.crop.width * s.body.scale
    let s1 := { s with
      tattooImage := some image
      tattoo := { s.tattoo with
        width := image.width, height := image.height
        crop := { x := 0, y := 0, width := image.width, height := image.height }
        scale := max 0.08 ((bodyDisplayWidth * 0.28) / image.width)
        rotation := 0, opacity := 1
        x := s.body.x, y := s.body.y } }
    setSelectedLayer math s1 (some .tattoo)

/-- `setOpacity(value)`. -/
def setOpacity (math : JsMath) (s : CState) (value : ℚ) : CState :=
  render math { s with tattoo := { s.tattoo with opacity := max 0.1 (min 1 (value / 100)) } }

/-- `setRotation(value)` (`Math.PI` from the oracle). -/
def setRotation (math : JsMath) (s : CState) (value : ℚ) : CState :=
  render math { s with tattoo := { s.tattoo with rotation := (value * math.pi) / 180 } }

/-- `removeTattoo()`. -/
def removeTattoo (math : JsMath) (s : CState) : CState :=
  let s1 := cancelCrop math s
  let s2 := { s1 with tattooImage := none }
  if s2.state.selectedLayer = some .tattoo then setSelectedLayer math s2 (some .body)
  else render math s2

/-- `clear()`. -/
def clear (math : JsMath) (s : CState) : CState :=
  let s1 := cancelCrop math s
  let s2 := { s1 with bodyImage := none, tattooImage := none }
  setSelectedLayer math s2 none

/-- `getTattooTransformForImageSpace()`. -/
def getTattooTransformForImageSpace (s : CState) : TattooTransform :=
  let safeBodyScale := if 0 < s.body.scale then s.body.scale else 1
  let bodyCrop := getLayerCrop s .body
  let tattooCrop := getLayerCrop s .tattoo
  { x := ((s.tattoo.x - s.body.x) / safeBodyScale) + (bodyCrop.width / 2)
    y := ((s.tattoo.y - s.body.y) / safeBodyScale) + (bodyCrop.height / 2)
    width := tattooCrop.width
    height := tattooCrop.height
    scale := s.tattoo.scale / safeBodyScale
    crop := tattooCrop }

/-- `exportImage()`: the export canvas dimensions (none when no body image
is attached — the source then encodes the live canvas and allocates no
export surface) together with the state after the call.  Of the export
pipeline only `drawTattooLayer → getIntegrationMap` touches the modelled
data state (the cache); `drawWatermark` and the pixel drawing do not. -/
def exportImage (math : JsMath) (s : CState) : Option (ℚ × ℚ) × CState :=
  match s.bodyImage with
  | none => (none, s)
  | some _ =>
    let bodyCrop := getLayerCrop s .body
    let s1 :=
      if s.tattooImage.isSome then
        let t := getTattooTransformForImageSpace s
        let ref : BodyRef :=
          { x := bodyCrop.width / 2, y := bodyCrop.height / 2
            width := bodyCrop.width, height := bodyCrop.height, scale := 1
            cropX := bodyCrop.x, cropY := bodyCrop.y }
        { s with integrationCache := (getIntegrationMap math s t (.explicit ref)).2.1 }
      else s
    (some (bodyCrop.width, bodyCrop.height), s1)

/-- The controller's public operations (methods reachable from event
handlers and external callers), with their external inputs as arguments. -/
inductive Op
  | opSetBodyImage (img : Image) (containerW containerH innerH : ℚ)
  | opSetTattooImage (img : Image)
  | opSetOpacity (v : ℚ)
  | opSetRotation (v : ℚ)
  | opRemoveTattoo
  | opClear
  | opApplyCrop
  | opCancelCrop
  | opBeginCrop (layerName : Option LayerName)
  | opSetSelectedLayer (l : Option LayerName)
  | opPointerDown (x y : ℚ)
  | opPointerMove (x y : ℚ)
  | opPointerUp
  | opResizeCanvas (containerW containerH innerH : ℚ)
  | opExportImage

/-- One public operation applied to the controller state. -/
def step (math : JsMath) (s : CState) : Op → CState
  | .opSetBodyImage img cw ch ih => setBodyImage math s img cw ch ih
  | .opSetTattooImage img => setTattooImage math s img
  | .opSetOpacity v => setOpacity math s v
  | .opSetRotation v => setRotation math s v
  | .opRemoveTattoo => removeTattoo math s
  | .opClear => clear math s
  | .opApplyCrop => (applyCrop math s).1
  | .opCancelCrop => cancelCrop math s
  | .opBeginCrop l => (beginCrop math s l).1
  | .opSetSelectedLayer l => setSelectedLayer math s l
  | .opPointerDown x y => onPointerDown math s x y
  | .opPointerMove x y => onPointerMove math s x y
  | .opPointerUp => onPointerUp s
  | .opResizeCanvas cw ch ih => resizeCanvasToContainer math s cw ch ih
  | .opExportImage => (exportImage math s).2

/-! Concrete fixtures used by witnesses and counterexamples. -/

/-- A concrete Math oracle (any total function is a legitimate stand-in for
`Math.hypot`; the taxicab norm is positive whenever either argument is). -/
def jsMathOracle : JsMath :=
  { hypot := fun a b => |a| + |b|, pi := 3.141592653589793 }

/-- A uniform mid-gray pixel. -/
def grayPixel : RGB :=
  { r := 128, g := 128, b := 128 }

/-- A uniformly gray decoded image of the given dimensions. -/
def grayImage (w h : ℚ) : Image :=
  { width := w, height := h, sampleRGB := fun _ _ _ _ _ _ _ _ => grayPixel }

/-- The constructor's `this.body` record. -/
def initialBody : Layer :=
  { x := 0, y := 0, scale := 1, rotation := 0, opacity := 1, width := 0, height := 0
    crop := { x := 0, y := 0, width := 0, height := 0 } }

/-- The constructor's `this.tattoo` record. -/
def initialTattoo : Layer :=
  { x := 0, y := 0, scale := 1, rotation := 0, opacity := 1, width := 0, height := 0
    crop := { x := 0, y := 0, width := 0, height := 0 } }

/-- The constructor's `this.state`. -/
def initialInteraction : InteractionState :=
  { selectedLayer := none, dragging := false, resizing := false
    dragStartX := 0, dragStartY := 0
    layerStart := { x := 0, y := 0, scale := 1 }
    crop := { active := false, layer := none, rect := none, mode := none
              dragStartX := 0, dragStartY := 0, startRect := none } }

/-- The controller state right after construction for a 900×560 canvas. -/
def freshState : CState :=
  { canvasWidth := 900, canvasHeight := 560
    bodyImage := none, tattooImage := none
    body := initialBody, tattoo := initialTattoo
    state := initialInteraction
    integrationCache := emptyIntegrationCache }

/-- A state mid-crop on the body layer: a 1000×1000 skin at scale 8 centred
at (4000, 4000) — footprint `[0, 8000]²` — with a pending 24×8000 crop
rectangle hugging the right edge. -/
def cropEdgeState : CState :=
  { canvasWidth := 900, canvasHeight := 560
    bodyImage := some (grayImage 1000 1000), tattooImage := none
    body := { x := 4000, y := 4000, scale := 8, rotation := 0, opacity := 1
              width := 1000, height := 1000
              crop := { x := 0, y := 0, width := 1000, height := 1000 } }
    tattoo := initialTattoo
    state := { initialInteraction with crop :=
      { active := true, layer := some .body
        rect := some { x := 7976, y := 0, width := 24, height := 8000 }
        mode := none, dragStartX := 0, dragStartY := 0, startRect := none } }
    integrationCache := emptyIntegrationCache }

/-- A state with a skin attached whose crop and position are away from the
attach defaults. -/
def croppedBodyState : CState :=
  { canvasWidth := 900, canvasHeight := 560
    bodyImage := some (grayImage 800 600), tattooImage := none
    body := { x := 100, y := 100, scale := 1, rotation := 0, opacity := 1
              width := 800, height := 600
              crop := { x := 10, y := 10, width := 500, height := 500 } }
    tattoo := initialTattoo
    state := initialInteraction
    integrationCache := emptyIntegrationCache }

/-- A state with a 500×400 skin attached at scale 1, selected, mid-resize
gesture (no crop in progress). -/
def resizingState : CState :=
  { canvasWidth := 900, canvasHeight := 560
    bodyImage := some (grayImage 500 400), tattooImage := none
    body := { x := 0, y := 0, scale := 1, rotation := 0, opacity := 1
              width := 500, height := 400
              crop := { x := 0, y := 0, width := 500, height := 400 } }
    tattoo := initialTattoo
    state := { initialInteraction with
      selectedLayer := some .body, resizing := true
      dragStartX := 10, dragStartY := 0
      layerStart := { x := 0, y := 0, scale := 1 } }
    integrationCache := emptyIntegrationCache }

/-- A plain attached-skin state (450×300 centred on a 900×560 canvas). -/
def attachedBodyState : CState :=
  { canvasWidth := 900, canvasHeight := 560
    bodyImage := some (grayImage 500 400), tattooImage := none
    body := { x := 450, y := 280, scale := 1, rotation := 0, opacity := 1
              width := 500, height := 400
              crop := { x := 20, y := 30, width := 100, height := 50 } }
    tattoo := initialTattoo
    state := { initialInteraction with selectedLayer := some .body }
    integrationCache := emptyIntegrationCache }

/-- The layering invariant: an ink (tattoo) image is attached only when a
skin (body) image is attached. -/
def inkRequiresSkin (s : CState) : Prop :=
  s.tattooImage.isSome = true → s.bodyImage.isSome = true

/-- A concrete ink transform used by witnesses. -/
def unitInkTransform : TattooTransform :=
  { x := 0, y := 0, width := 200, height := 200, scale := 1
    crop := { x := 0, y := 0, width := 200, height := 200 } }

/-- A stored crop rectangle that is at least 1×1 and lies inside the
layer's native pixel bounds. -/
def cropWithinNative (t : Layer) : Prop :=
  1 ≤ t.crop.width ∧ 1 ≤ t.crop.height ∧ 0 ≤ t.crop.x ∧ 0 ≤ t.crop.y ∧
    t.crop.x + t.crop.width ≤ t.width ∧ t.crop.y + t.crop.height ≤ t.height

/-- The public operations that (re)write a stored crop rectangle: the two
attach operations and `applyCrop`. -/
def Op.writesCrop : Op → Bool
  | .opSetBodyImage _ _ _ _ => true
  | .opSetTattooImage _ => true
  | .opApplyCrop => true
  | _ => false

/-- The quantized cache key `getIntegrationMap` computes for its inputs. -/
def integrationKeyOf (s : CState) (img : Image) (t : TattooTransform) (arg : BodyRefArg) :
    CacheKey :=
  let r := getBodySamplingRect s img t arg
  integrationKey r (integrationMapDim r.width) (integrationMapDim r.height)

/-- The cache entry `getIntegrationMap` computes on a miss. -/
def integrationEntryOf (m : JsMath) (s : CState) (img : Image) (t : TattooTransform)
    (arg : BodyRefArg) : IntegrationCache :=
  let r := getBodySamplingRect s img t arg
  computeIntegrationEntry m img r
    (integrationKey r (integrationMapDim r.width) (integrationMapDim r.height))
    (integrationMapDim r.width) (integrationMapDim r.height)

/-- Two states agree on both images. -/
def ImagesEq (a b : CState) : Prop :=
  a.bodyImage = b.bodyImage ∧ a.tattooImage = b.tattooImage

/-- Two states agree on both stored crop rectangles. -/
def CropsEq (a b : CState) : Prop :=
  a.body.crop = b.body.crop ∧ a.tattoo.crop = b.tattoo.crop

/-- Two states agree on everything except the interaction state and the
integration cache. -/
def LayersEq (a b : CState) : Prop :=
  a.body = b.body ∧ a.tattoo = b.tattoo ∧ a.bodyImage = b.bodyImage ∧
    a.tattooImage = b.tattooImage ∧ a.canvasWidth = b.canvasWidth ∧
    a.canvasHeight = b.canvasHeight

theorem LayersEq.lrefl {a : CState} : LayersEq a a :=
  ⟨Eq.refl _, Eq.refl _, Eq.refl _, Eq.refl _, Eq.refl _, Eq.refl _⟩

theorem LayersEq.ltrans {a b c : CState} (h1 : LayersEq a b) (h2 : LayersEq b c) :
    LayersEq a c := by
  obtain ⟨u1, u2, u3, u4, u5, u6⟩ := h1
  obtain ⟨v1, v2, v3, v4, v5, v6⟩ := h2
  exact ⟨u1.trans v1, u2.trans v2, u3.trans v3, u4.trans v4, u5.trans v5, u6.trans v6⟩

theorem LayersEq.imagesEq {a b : CState} (h : LayersEq a b) : ImagesEq a b :=
  ⟨h.2.2.1, h.2.2.2.1⟩

theorem LayersEq.cropsEq {a b : CState} (h : LayersEq a b) : CropsEq a b :=
  ⟨by rw [h.1], by rw [h.2.1]⟩

theorem ImagesEq.irefl {a : CState} : ImagesEq a a := ⟨Eq.refl _, Eq.refl _⟩

theorem ImagesEq.itrans {a b c : CState} (h1 : ImagesEq a b) (h2 : ImagesEq b c) :
    ImagesEq a c := ⟨h1.1.trans h2.1, h1.2.trans h2.2⟩

theorem CropsEq.crefl {a : CState} : CropsEq a a := ⟨Eq.refl _, Eq.refl _⟩

theorem CropsEq.ctrans {a b c : CState} (h1 : CropsEq a b) (h2 : CropsEq b c) :
    CropsEq a c := ⟨h1.1.trans h2.1, h1.2.trans h2.2⟩

/-- `render` touches only the integration cache. -/
theorem render_layersEq (m : JsMath) (s : CState) : LayersEq (render m s) s := by
  unfold render
  split
  · exact .lrefl
  split
  · exact ⟨rfl, rfl, rfl, rfl, rfl, rfl⟩
  · exact .lrefl

/-- `render` does not touch the interaction state. -/
theorem render_state (m : JsMath) (s : CState) : (render m s).state = s.state := by
  unfold render
  split
  · rfl
  split <;> rfl

/-- `cancelCrop` touches only the interaction state and the cache. -/
theorem cancelCrop_layersEq (m : JsMath) (s : CState) : LayersEq (cancelCrop m s) s := by
  unfold cancelCrop
  split
  · exact .lrefl
  · exact (render_layersEq m _).ltrans ⟨rfl, rfl, rfl, rfl, rfl, rfl⟩

/-- `setSelectedLayer` touches only the interaction state and the cache. -/
theorem setSelectedLayer_layersEq (m : JsMath) (s : CState) (l : Option LayerName) :
    LayersEq (setSelectedLayer m s l) s := by
  unfold setSelectedLayer
  split
  · exact .lrefl
  · refine (render_layersEq m _).ltrans ?_
    split
    · exact (cancelCrop_layersEq m s).ltrans .lrefl
    · exact .lrefl

/-- `beginCrop` touches only the interaction state and the cache. -/
theorem beginCrop_layersEq (m : JsMath) (s : CState) (l : Option LayerName) :
    LayersEq (beginCrop m s l).1 s := by
  unfold beginCrop
  split
  · exact .lrefl
  split
  · exact .lrefl
  split
  · exact .lrefl
  · exact (render_layersEq m _).ltrans ⟨rfl, rfl, rfl, rfl, rfl, rfl⟩

/-- `onPointerUp` touches only the interaction state. -/
theorem onPointerUp_layersEq (s : CState) : LayersEq (onPointerUp s) s := by
  unfold onPointerUp
  dsimp only
  split
  · exact LayersEq.lrefl
  · exact LayersEq.lrefl

/-- `onPointerDown` touches only the interaction state and the cache. -/
theorem onPointerDown_layersEq (m : JsMath) (s : CState) (px py : ℚ) :
    LayersEq (onPointerDown m s px py) s := by
  unfold onPointerDown
  dsimp only
  split
  · exact .lrefl
  split
  · split
    · exact .lrefl
    · exact LayersEq.lrefl
  · cases hsel : s.state.selectedLayer with
    | none =>
      dsimp only
      split
      · exact setSelectedLayer_layersEq m s (some .tattoo)
      split
      · exact setSelectedLayer_layersEq m s (some .body)
      · exact setSelectedLayer_layersEq m s none
    | some sel =>
      cases hha : getHandleAt s sel px py with
      | some h =>
        simp only [hha]
        exact LayersEq.lrefl
      | none =>
        simp only [hha]
        split
        · exact setSelectedLayer_layersEq m s (some .tattoo)
        split
        · exact setSelectedLayer_layersEq m s (some .body)
        · exact setSelectedLayer_layersEq m s none

/-- `exportImage` touches only the integration cache. -/
theorem exportImage_layersEq (m : JsMath) (s : CState) :
    LayersEq (exportImage m s).2 s := by
  unfold exportImage
  split
  · exact .lrefl
  · split
    · exact ⟨rfl, rfl, rfl, rfl, rfl, rfl⟩
    · exact .lrefl

/-- `exportImage` does not touch the interaction state. -/
theorem exportImage_state (m : JsMath) (s : CState) :
    (exportImage m s).2.state = s.state := by
  unfold exportImage
  split
  · rfl
  · split <;> rfl

/-- `setLayerTransform` leaves both images in place. -/
theorem setLayerTransform_imagesEq (s : CState) (l : LayerName) (f : Layer → Layer) :
    ImagesEq (setLayerTransform s l f) s := by
  cases l <;> exact ⟨rfl, rfl⟩

/-- `setLayerTransform` with a crop-preserving update leaves both stored
crops in place. -/
theorem setLayerTransform_cropsEq (s : CState) (l : LayerName) (f : Layer → Layer)
    (hf : ∀ t, (f t).crop = t.crop) : CropsEq (setLayerTransform s l f) s := by
  cases l
  · exact ⟨hf s.body, rfl⟩
  · exact ⟨rfl, hf s.tattoo⟩

theorem imagesEq_ite_both {s A B : CState} {P : Prop} [Decidable P]
    (ha : ImagesEq A s) (hb : ImagesEq B s) : ImagesEq (if P then A else B) s := by
  split
  · exact ha
  · exact hb

theorem cropsEq_ite_both {s A B : CState} {P : Prop} [Decidable P]
    (ha : CropsEq A s) (hb : CropsEq B s) : CropsEq (if P then A else B) s := by
  split
  · exact ha
  · exact hb

/-- `applyCrop` leaves both images in place. -/
theorem applyCrop_imagesEq (m : JsMath) (s : CState) : ImagesEq (applyCrop m s).1 s := by
  unfold applyCrop
  split
  · split
    · exact (cancelCrop_layersEq m s).imagesEq
    · dsimp only
      refine ((render_layersEq m _).imagesEq).itrans ?_
      split
      · exact setLayerTransform_imagesEq s _ _
      · exact setLayerTransform_imagesEq s _ _
  · exact .irefl

/-- `onPointerMove` leaves both images and both stored crops in place. -/
theorem onPointerMove_imagesCropsEq (m : JsMath) (s : CState) (px py : ℚ) :
    ImagesEq (onPointerMove m s px py) s ∧ CropsEq (onPointerMove m s px py) s := by
  unfold onPointerMove
  split
  · exact ⟨.irefl, .crefl⟩
  split
  · split
    · split
      · exact ⟨((render_layersEq m _).imagesEq).itrans .irefl,
               ((render_layersEq m _).cropsEq).ctrans .crefl⟩
      · exact ⟨.irefl, .crefl⟩
    · exact ⟨.irefl, .crefl⟩
  · split
    · split
      · refine ⟨((render_layersEq m _).imagesEq).itrans (setLayerTransform_imagesEq s _ _),
               ((render_layersEq m _).cropsEq).ctrans (setLayerTransform_cropsEq s _ _ ?_)⟩
        intro t; rfl
      split
      · refine ⟨?_, ?_⟩
        · exact imagesEq_ite_both
            (((render_layersEq m _).imagesEq).itrans (setLayerTransform_imagesEq s _ _)) .irefl
        · exact cropsEq_ite_both
            (((render_layersEq m _).cropsEq).ctrans
              (setLayerTransform_cropsEq s _ _ fun t => rfl)) .crefl
      · exact ⟨.irefl, .crefl⟩
    · exact ⟨.irefl, .crefl⟩

/-- `resizeCanvasToContainer` leaves both images and both stored crops in
place. -/
theorem resizeCanvas_imagesCropsEq (m : JsMath) (s : CState) (cw ch ih : ℚ) :
    ImagesEq (resizeCanvasToContainer m s cw ch ih) s ∧
      CropsEq (resizeCanvasToContainer m s cw ch ih) s := by
  unfold resizeCanvasToContainer
  refine ⟨?_, ?_⟩
  · exact imagesEq_ite_both .irefl
      (((render_layersEq m _).imagesEq).itrans
        (imagesEq_ite_both (imagesEq_ite_both ⟨rfl, rfl⟩ ⟨rfl, rfl⟩)
          (imagesEq_ite_both ⟨rfl, rfl⟩ ⟨rfl, rfl⟩)))
  · exact cropsEq_ite_both .crefl
      (((render_layersEq m _).cropsEq).ctrans
        (cropsEq_ite_both (cropsEq_ite_both ⟨rfl, rfl⟩ ⟨rfl, rfl⟩)
          (cropsEq_ite_both ⟨rfl, rfl⟩ ⟨rfl, rfl⟩)))

/-- `setOpacity` leaves both images and both stored crops in place. -/
theorem setOpacity_imagesCropsEq (m : JsMath) (s : CState) (v : ℚ) :
    ImagesEq (setOpacity m s v) s ∧ CropsEq (setOpacity m s v) s :=
  ⟨((render_layersEq m _).imagesEq).itrans ⟨rfl, rfl⟩,
   ((render_layersEq m _).cropsEq).ctrans ⟨rfl, rfl⟩⟩

/-- `setRotation` leaves both images and both stored crops in place. -/
theorem setRotation_imagesCropsEq (m : JsMath) (s : CState) (v : ℚ) :
    ImagesEq (setRotation m s v) s ∧ CropsEq (setRotation m s v) s :=
  ⟨((render_layersEq m _).imagesEq).itrans ⟨rfl, rfl⟩,
   ((render_layersEq m _).cropsEq).ctrans ⟨rfl, rfl⟩⟩

/-- `removeTattoo` keeps the body image, drops the tattoo image and leaves
both stored crops in place. -/
theorem removeTattoo_effects (m : JsMath) (s : CState) :
    (removeTattoo m s).bodyImage = s.bodyImage ∧ (removeTattoo m s).tattooImage = none ∧
      CropsEq (removeTattoo m s) s := by
  unfold removeTattoo
  dsimp only
  split
  · refine ⟨?_, ?_, ?_⟩
    · rw [(setSelectedLayer_layersEq m _ _).2.2.1]
      exact (cancelCrop_layersEq m s).2.2.1
    · rw [(setSelectedLayer_layersEq m _ _).2.2.2.1]
    · exact ((setSelectedLayer_layersEq m _ _).cropsEq).ctrans ((cancelCrop_layersEq m s).cropsEq)
  · refine ⟨?_, ?_, ?_⟩
    · rw [(render_layersEq m _).2.2.1]
      exact (cancelCrop_layersEq m s).2.2.1
    · rw [(render_layersEq m _).2.2.2.1]
    · exact ((render_layersEq m _).cropsEq).ctrans ((cancelCrop_layersEq m s).cropsEq)

/-- `clear` drops both images and leaves both stored crops in place. -/
theorem clear_effects (m : JsMath) (s : CState) :
    (clear m s).bodyImage = none ∧ (clear m s).tattooImage = none ∧ CropsEq (clear m s) s := by
  unfold clear
  dsimp only
  refine ⟨?_, ?_, ?_⟩
  · rw [(setSelectedLayer_layersEq m _ _).2.2.1]
  · rw [(setSelectedLayer_layersEq m _ _).2.2.2.1]
  · exact ((setSelectedLayer_layersEq m _ _).cropsEq).ctrans ((cancelCrop_layersEq m s).cropsEq)

/-- `setBodyImage` installs the skin image and drops the tattoo image. -/
theorem setBodyImage_images (m : JsMath) (s : CState) (img : Image) (cw ch ih : ℚ) :
    (setBodyImage m s img cw ch ih).bodyImage = some img ∧
      (setBodyImage m s img cw ch ih).tattooImage = none := by
  unfold setBodyImage
  dsimp only
  constructor
  · rw [(setSelectedLayer_layersEq m _ _).2.2.1, (resizeCanvas_imagesCropsEq m _ cw ch ih).1.1,
      (cancelCrop_layersEq m _).2.2.1]
  · rw [(setSelectedLayer_layersEq m _ _).2.2.2.1, (resizeCanvas_imagesCropsEq m _ cw ch ih).1.2,
      (cancelCrop_layersEq m _).2.2.2.1]

/-- `setTattooImage` with no skin attached is a complete no-op. -/
theorem setTattooImage_noop (m : JsMath) (s : CState) (img : Image)
    (h : s.bodyImage = none) : setTattooImage m s img = s := by
  unfold setTattooImage
  rw [if_pos]
  rw [h]
  rfl

/-- `setTattooImage` with a skin attached keeps the body image and installs
the tattoo image. -/
theorem setTattooImage_images (m : JsMath) (s : CState) (img : Image)
    (h : s.bodyImage.isSome) :
    (setTattooImage m s img).bodyImage = s.bodyImage ∧
      (setTattooImage m s img).tattooImage = some img := by
  unfold setTattooImage
  rw [if_neg (by simp [Option.isNone_iff_eq_none]; exact Option.isSome_iff_exists.mp h |>.elim fun a ha => by simp [ha])]
  dsimp only
  constructor
  · rw [(setSelectedLayer_layersEq m _ _).2.2.1]
  · rw [(setSelectedLayer_layersEq m _ _).2.2.2.1]

theorem inkRequiresSkin_of_imagesEq {a b : CState} (hab : ImagesEq a b)
    (h : inkRequiresSkin b) : inkRequiresSkin a := by
  intro ht
  rw [hab.1]
  exact h (hab.2 ▸ ht)

/-- C10: every public operation preserves the invariant that a tattoo image
is attached only when a body image is attached: `setTattooImage` is a no-op
without a skin, `setBodyImage` clears the tattoo, `removeTattoo` keeps the
skin, `clear` removes both, and no other operation touches the images. -/
theorem step_preserves_inkRequiresSkin (m : JsMath) (s : CState) (op : Op)
    (h : inkRequiresSkin s) : inkRequiresSkin (step m s op) := by
  cases op with
  | opSetBodyImage img cw ch ih =>
    dsimp only [step]
    intro _
    rw [(setBodyImage_images m s img cw ch ih).1]
    rfl
  | opSetTattooImage img =>
    cases hb : s.bodyImage with
    | none =>
      rw [show step m s (.opSetTattooImage img) = s from setTattooImage_noop m s img hb]
      exact h
    | some b =>
      dsimp only [step]
      intro _
      rw [(setTattooImage_images m s img (by rw [hb]; rfl)).1, hb]
      rfl
  | opSetOpacity v => exact inkRequiresSkin_of_imagesEq (setOpacity_imagesCropsEq m s v).1 h
  | opSetRotation v => exact inkRequiresSkin_of_imagesEq (setRotation_imagesCropsEq m s v).1 h
  | opRemoveTattoo =>
    dsimp only [step]
    intro ht
    rw [(removeTattoo_effects m s).2.1] at ht
    exact absurd ht (by simp)
  | opClear =>
    dsimp only [step]
    intro ht
    rw [(clear_effects m s).2.1] at ht
    exact absurd ht (by simp)
  | opApplyCrop => exact inkRequiresSkin_of_imagesEq (applyCrop_imagesEq m s) h
  | opCancelCrop => exact inkRequiresSkin_of_imagesEq (cancelCrop_layersEq m s).imagesEq h
  | opBeginCrop l => exact inkRequiresSkin_of_imagesEq (beginCrop_layersEq m s l).imagesEq h
  | opSetSelectedLayer l =>
    exact inkRequiresSkin_of_imagesEq (setSelectedLayer_layersEq m s l).imagesEq h
  | opPointerDown x y =>
    exact inkRequiresSkin_of_imagesEq (onPointerDown_layersEq m s x y).imagesEq h
  | opPointerMove x y =>
    exact inkRequiresSkin_of_imagesEq (onPointerMove_imagesCropsEq m s x y).1 h
  | opPointerUp => exact inkRequiresSkin_of_imagesEq (onPointerUp_layersEq s).imagesEq h
  | opResizeCanvas cw ch ih =>
    exact inkRequiresSkin_of_imagesEq (resizeCanvas_imagesCropsEq m s cw ch ih).1 h
  | opExportImage => exact inkRequiresSkin_of_imagesEq (exportImage_layersEq m s).imagesEq h

/-- C10 witness: the invariant holds in the fresh state and is preserved by
a concrete operation. -/
theorem step_preserves_inkRequiresSkin_witness :
    inkRequiresSkin freshState ∧ inkRequiresSkin (step jsMathOracle freshState .opClear) :=
  ⟨(fun ht => nomatch ht),
   step_preserves_inkRequiresSkin jsMathOracle freshState .opClear (fun ht => nomatch ht)⟩

/-- C2: for every attached layer with a nondegenerate stored crop,
`getLayerBounds` returns an axis-aligned rectangle of size
`crop.size * scale` centred at the layer position, with corners labelled
`nw, ne, se, sw` clockwise from the top-left. -/
theorem getLayerBounds_footprint (s : CState) (l : LayerName)
    (h : hasLayer s l = true)
    (hw : (getLayerTransform s l).crop.width ≠ 0)
    (hh : (getLayerTransform s l).crop.height ≠ 0) :
    ∃ b : Bounds, getLayerBounds s l = some b ∧
      b.width = (getLayerTransform s l).crop.width * (getLayerTransform s l).scale ∧
      b.height = (getLayerTransform s l).crop.height * (getLayerTransform s l).scale ∧
      b.x + b.width / 2 = (getLayerTransform s l).x ∧
      b.y + b.height / 2 = (getLayerTransform s l).y ∧
      b.corners =
        [ { x := b.x, y := b.y, type := .nw }
        , { x := b.x + b.width, y := b.y, type := .ne }
        , { x := b.x + b.width, y := b.y + b.height, type := .se }
        , { x := b.x, y := b.y + b.height, type := .sw } ] := by
  unfold getLayerBounds
  rw [if_pos h]
  refine ⟨_, rfl, ?_, ?_, ?_, ?_, rfl⟩
  · dsimp only [getLayerDisplaySize, getLayerCrop]
    rw [if_neg hw]
  · dsimp only [getLayerDisplaySize, getLayerCrop]
    rw [if_neg hh]
  · ring
  · ring

/-- C2 witness at a concrete attached state. -/
theorem getLayerBounds_footprint_witness :
    hasLayer attachedBodyState .body = true ∧
    (getLayerTransform attachedBodyState .body).crop.width ≠ 0 ∧
    (getLayerTransform attachedBodyState .body).crop.height ≠ 0 ∧
    (∃ b : Bounds, getLayerBounds attachedBodyState .body = some b ∧
      b.width = (getLayerTransform attachedBodyState .body).crop.width *
        (getLayerTransform attachedBodyState .body).scale ∧
      b.height = (getLayerTransform attachedBodyState .body).crop.height *
        (getLayerTransform attachedBodyState .body).scale ∧
      b.x + b.width / 2 = (getLayerTransform attachedBodyState .body).x ∧
      b.y + b.height / 2 = (getLayerTransform attachedBodyState .body).y ∧
      b.corners =
        [ { x := b.x, y := b.y, type := .nw }
        , { x := b.x + b.width, y := b.y, type := .ne }
        , { x := b.x + b.width, y := b.y + b.height, type := .se }
        , { x := b.x, y := b.y + b.height, type := .sw } ]) :=
  ⟨rfl, by norm_num [attachedBodyState, getLayerTransform],
   by norm_num [attachedBodyState, getLayerTransform],
   getLayerBounds_footprint attachedBodyState .body rfl
     (by norm_num [attachedBodyState, getLayerTransform])
     (by norm_num [attachedBodyState, getLayerTransform])⟩

/-- C7: with a skin attached, `exportImage` reports the skin's cropped
native resolution as the output size and leaves both layers, both images
and the whole interaction state (selection included) unchanged. -/
theorem exportImage_dims_preserves (m : JsMath) (s : CState)
    (hb : s.bodyImage.isSome = true)
    (hw : s.body.crop.width ≠ 0) (hh : s.body.crop.height ≠ 0) :
    (exportImage m s).1 = some (s.body.crop.width, s.body.crop.height) ∧
      (exportImage m s).2.body = s.body ∧
      (exportImage m s).2.tattoo = s.tattoo ∧
      (exportImage m s).2.bodyImage = s.bodyImage ∧
      (exportImage m s).2.tattooImage = s.tattooImage ∧
      (exportImage m s).2.state = s.state := by
  obtain ⟨img, himg⟩ := Option.isSome_iff_exists.mp hb
  refine ⟨?_, (exportImage_layersEq m s).1, (exportImage_layersEq m s).2.1,
    (exportImage_layersEq m s).2.2.1, (exportImage_layersEq m s).2.2.2.1,
    exportImage_state m s⟩
  unfold exportImage
  rw [himg]
  dsimp only [getLayerCrop, getLayerTransform]
  rw [if_neg hw, if_neg hh]

/-- C7 witness at a concrete attached state. -/
theorem exportImage_dims_preserves_witness :
    attachedBodyState.bodyImage.isSome = true ∧
    attachedBodyState.body.crop.width ≠ 0 ∧ attachedBodyState.body.crop.height ≠ 0 ∧
    ((exportImage jsMathOracle attachedBodyState).1 =
        some (attachedBodyState.body.crop.width, attachedBodyState.body.crop.height) ∧
      (exportImage jsMathOracle attachedBodyState).2.body = attachedBodyState.body ∧
      (exportImage jsMathOracle attachedBodyState).2.tattoo = attachedBodyState.tattoo ∧
      (exportImage jsMathOracle attachedBodyState).2.bodyImage = attachedBodyState.bodyImage ∧
      (exportImage jsMathOracle attachedBodyState).2.tattooImage =
        attachedBodyState.tattooImage ∧
      (exportImage jsMathOracle attachedBodyState).2.state = attachedBodyState.state) :=
  ⟨rfl, by norm_num [attachedBodyState], by norm_num [attachedBodyState],
   exportImage_dims_preserves jsMathOracle attachedBodyState rfl
     (by norm_num [attachedBodyState]) (by norm_num [attachedBodyState])⟩

/-- C8: the Tone Sampler returns the fixed neutral default when no skin is
attached or the body reference transform has non-positive scale, for every
ink transform. -/
theorem getSkinToneStats_neutral (s : CState) (t : TattooTransform) (arg : BodyRefArg)
    (h : s.bodyImage = none ∨ (arg.resolve s).scale ≤ 0) :
    getSkinToneStats s t arg = toneNeutralDefault := by
  unfold getSkinToneStats
  rcases h with h | h
  · rw [h]
  · cases himg : s.bodyImage with
    | none => rfl
    | some img =>
      dsimp only
      rw [if_pos h]

/-- C8 witness: no skin attached. -/
theorem getSkinToneStats_neutral_witness :
    (freshState.bodyImage = none ∨ (BodyRefArg.current.resolve freshState).scale ≤ 0) ∧
      getSkinToneStats freshState unitInkTransform .current = toneNeutralDefault :=
  ⟨Or.inl rfl,
   getSkinToneStats_neutral freshState unitInkTransform .current (Or.inl rfl)⟩

/-- C9: attaching an ink image while a skin is present centres it on the
skin position with `scale = max(0.08, (skin crop width · skin scale) · 0.28
/ ink width)`, rotation 0, opacity 1 and a full-image crop. -/
theorem setTattooImage_defaults (m : JsMath) (s : CState) (img : Image)
    (hb : s.bodyImage.isSome = true) :
    (setTattooImage m s img).tattoo.x = s.body.x ∧
    (setTattooImage m s img).tattoo.y = s.body.y ∧
    (setTattooImage m s img).tattoo.scale
      = max 0.08 ((s.body.crop.width * s.body.scale * 0.28) / img.width) ∧
    (setTattooImage m s img).tattoo.rotation = 0 ∧
    (setTattooImage m s img).tattoo.opacity = 1 ∧
    (setTattooImage m s img).tattoo.crop
      = { x := 0, y := 0, width := img.width, height := img.height } ∧
    (setTattooImage m s img).tattooImage = some img := by
  obtain ⟨b, himg⟩ := Option.isSome_iff_exists.mp hb
  unfold setTattooImage
  rw [himg]
  simp only [Option.isNone_some, Bool.false_eq_true, if_false]
  refine ⟨?_, ?_, ?_, ?_, ?_, ?_, ?_⟩
  · rw [(setSelectedLayer_layersEq m _ _).2.1]
  · rw [(setSelectedLayer_layersEq m _ _).2.1]
  · rw [(setSelectedLayer_layersEq m _ _).2.1]
  · rw [(setSelectedLayer_layersEq m _ _).2.1]
  · rw [(setSelectedLayer_layersEq m _ _).2.1]
  · rw [(setSelectedLayer_layersEq m _ _).2.1]
  · rw [(setSelectedLayer_layersEq m _ _).2.2.2.1]

/-- C9 witness: a 200×200 ink attached onto a concrete skin state. -/
theorem setTattooImage_defaults_witness :
    attachedBodyState.bodyImage.isSome = true ∧
    ((setTattooImage jsMathOracle attachedBodyState (grayImage 200 200)).tattoo.x =
        attachedBodyState.body.x ∧
      (setTattooImage jsMathOracle attachedBodyState (grayImage 200 200)).tattoo.y =
        attachedBodyState.body.y ∧
      (setTattooImage jsMathOracle attachedBodyState (grayImage 200 200)).tattoo.scale =
        max 0.08 ((attachedBodyState.body.crop.width * attachedBodyState.body.scale * 0.28) /
          (grayImage 200 200).width) ∧
      (setTattooImage jsMathOracle attachedBodyState (grayImage 200 200)).tattoo.rotation = 0 ∧
      (setTattooImage jsMathOracle attachedBodyState (grayImage 200 200)).tattoo.opacity = 1 ∧
      (setTattooImage jsMathOracle attachedBodyState (grayImage 200 200)).tattoo.crop =
        { x := 0, y := 0, width := (grayImage 200 200).width
          height := (grayImage 200 200).height } ∧
      (setTattooImage jsMathOracle attachedBodyState (grayImage 200 200)).tattooImage =
        some (grayImage 200 200)) :=
  ⟨rfl, setTattooImage_defaults jsMathOracle attachedBodyState (grayImage 200 200) rfl⟩

/-- `getLayerTransform` after a `render` (which only touches the cache). -/
theorem getLayerTransform_render (m : JsMath) (s : CState) (l : LayerName) :
    getLayerTransform (render m s) l = getLayerTransform s l := by
  cases l
  · exact (render_layersEq m s).1
  · exact (render_layersEq m s).2.1

/-- The lower clamp bound is always respected. -/
theorem le_clamp_lo (v lo hi : ℚ) : lo ≤ clamp v lo hi :=
  le_max_left _ _

/-- `clamp x 0 (w-1) + clamp v 1 (w-x) ≤ w` for `0 ≤ x` and `1 ≤ w`: the
clamped crop origin plus the clamped crop extent never overruns the native
dimension. -/
theorem clamp_pair_le (w nx v : ℚ) (h0 : 0 ≤ nx) (h1 : 1 ≤ w) :
    clamp nx 0 (w - 1) + clamp v 1 (w - nx) ≤ w := by
  unfold clamp
  rcases le_or_lt nx (w - 1) with hc | hc
  · rw [min_eq_right hc, max_eq_right h0]
    have hm : min (w - nx) v ≤ w - nx := min_le_left _ _
    have h2 : max 1 (min (w - nx) v) ≤ w - nx := max_le (by linarith) hm
    linarith
  · rw [min_eq_left (le_of_lt hc), max_eq_right (by linarith : (0 : ℚ) ≤ w - 1)]
    have hm : min (w - nx) v ≤ w - nx := min_le_left _ _
    have h2 : max 1 (min (w - nx) v) = 1 := max_eq_left (by linarith)
    rw [h2]
    linarith

/-- A nonnegative if-then-else of nonnegative branches. -/
theorem qite_nonneg {c : Prop} [Decidable c] {a b : ℚ} (ha : 0 ≤ a) (hb : 0 ≤ b) :
    0 ≤ if c then a else b := by
  split
  · exact ha
  · exact hb

/-- The crop rectangle built by `applyCrop` satisfies `cropWithinNative`
whenever the unclamped origin is nonnegative and the native size is
at least 1×1. -/
theorem builtCrop_within {px py sc rot op w h nx ny vw vh : ℚ}
    (hw : 1 ≤ w) (hh : 1 ≤ h) (hnx : 0 ≤ nx) (hny : 0 ≤ ny) :
    cropWithinNative
      { x := px, y := py, scale := sc, rotation := rot, opacity := op,
        width := w, height := h,
        crop := { x := clamp nx 0 (w - 1), y := clamp ny 0 (h - 1),
                  width := clamp vw 1 (w - nx), height := clamp vh 1 (h - ny) } } :=
  ⟨le_clamp_lo _ _ _, le_clamp_lo _ _ _, le_clamp_lo _ _ _, le_clamp_lo _ _ _,
   clamp_pair_le _ _ _ hnx hw, clamp_pair_le _ _ _ hny hh⟩

/-- C1 counterexample: confirming a legal 24-unit-wide pending crop hugging
the right edge of a 1000-px-wide skin at scale 8 stores a crop of width 3,
below `max(1, 3% · 1000) = 30` — the 3% minimum is defeated by the final
clamp against the image's right edge. -/
theorem applyCrop_minRatio_counterexample :
    ¬ (max 1 (0.03 * cropEdgeState.body.width)
        ≤ ((applyCrop jsMathOracle cropEdgeState).1).body.crop.width) := by
  norm_num [applyCrop, cropEdgeState, getLayerTransform, getLayerBounds, getLayerCrop,
    getLayerDisplaySize, hasLayer, clamp, setLayerTransform, render, emptyIntegrationCache,
    initialInteraction, initialTattoo, grayImage, jsMathOracle, min_def, max_def]

/-- C1 amended: after a confirmed crop (active crop state, attached layer,
valid pre-state crop), the stored crop rectangle has width ≥ 1 and height
≥ 1 and lies entirely within the image's native pixel bounds; the 3%-of-
native-dimension floor is applied before the final clamp against the
image's right/bottom edge, so the stored size can end below 3% of the
native dimension (but never below 1). -/
theorem applyCrop_crop_bounds (m : JsMath) (s : CState) (l : LayerName) (cr : Rect)
    (ha : s.state.crop.active = true) (hl : s.state.crop.layer = some l)
    (hr : s.state.crop.rect = some cr) (himg : hasLayer s l = true)
    (hW : 1 ≤ (getLayerTransform s l).width) (hH : 1 ≤ (getLayerTransform s l).height)
    (hcx : 0 ≤ (getLayerTransform s l).crop.x) (hcy : 0 ≤ (getLayerTransform s l).crop.y)
    (hcw : 0 ≤ (getLayerTransform s l).crop.width)
    (hch : 0 ≤ (getLayerTransform s l).crop.height) :
    cropWithinNative (getLayerTransform (applyCrop m s).1 l) := by
  cases l with
  | body =>
    unfold applyCrop getLayerBounds
    simp only [ha, hl, hr, himg, eq_self_iff_true, if_true]
    rw [getLayerTransform_render]
    exact builtCrop_within hW hH
      (add_nonneg hcx (mul_nonneg (qite_nonneg (le_trans zero_le_one hW) hcw)
        (le_clamp_lo _ _ _)))
      (add_nonneg hcy (mul_nonneg (qite_nonneg (le_trans zero_le_one hH) hch)
        (le_clamp_lo _ _ _)))
  | tattoo =>
    unfold applyCrop getLayerBounds
    simp only [ha, hl, hr, himg, eq_self_iff_true, if_true]
    rw [getLayerTransform_render]
    exact builtCrop_within hW hH
      (add_nonneg hcx (mul_nonneg (qite_nonneg (le_trans zero_le_one hW) hcw)
        (le_clamp_lo _ _ _)))
      (add_nonneg hcy (mul_nonneg (qite_nonneg (le_trans zero_le_one hH) hch)
        (le_clamp_lo _ _ _)))

/-- C1 amended witness at the concrete mid-crop state. -/
theorem applyCrop_crop_bounds_witness :
    cropEdgeState.state.crop.active = true ∧
    cropEdgeState.state.crop.layer = some .body ∧
    cropEdgeState.state.crop.rect = some { x := 7976, y := 0, width := 24, height := 8000 } ∧
    hasLayer cropEdgeState .body = true ∧
    cropWithinNative (getLayerTransform (applyCrop jsMathOracle cropEdgeState).1 .body) :=
  ⟨rfl, rfl, rfl, rfl,
   applyCrop_crop_bounds jsMathOracle cropEdgeState .body
     { x := 7976, y := 0, width := 24, height := 8000 } rfl rfl rfl rfl
     (by norm_num [cropEdgeState, getLayerTransform])
     (by norm_num [cropEdgeState, getLayerTransform])
     (by norm_num [cropEdgeState, getLayerTransform])
     (by norm_num [cropEdgeState, getLayerTransform])
     (by norm_num [cropEdgeState, getLayerTransform])
     (by norm_num [cropEdgeState, getLayerTransform])⟩

/-- `getLayerTransform` after updating the same layer. -/
theorem getLayerTransform_set_same (s : CState) (l : LayerName) (f : Layer → Layer) :
    getLayerTransform (setLayerTransform s l f) l = f (getLayerTransform s l) := by
  cases l <;> rfl

/-- C3 counterexample: attaching a 100000×100000 skin image onto the fresh
900×560 canvas stores `body.scale = 0.004592`, outside `[0.05, 8]` — the
attach default is a fit-to-canvas heuristic, not clamped. -/
theorem attachSkin_scale_counterexample :
    ¬ (0.05 ≤ (setBodyImage jsMathOracle freshState (grayImage 100000 100000)
          900 560 700).body.scale ∧
        (setBodyImage jsMathOracle freshState (grayImage 100000 100000)
          900 560 700).body.scale ≤ 8) := by
  unfold setBodyImage
  dsimp only
  rw [(setSelectedLayer_layersEq _ _ _).1]
  norm_num [freshState, resizeCanvasToContainer, nextCanvasSize, cancelCrop,
    render, emptyIntegrationCache, initialInteraction, initialBody,
    initialTattoo, grayImage, jsMathOracle, min_def, max_def,
    Option.isNone_none, Option.isNone_some, Option.isSome_none, Option.isSome_some]

/-- C3 amended: the resize gesture clamps the selected layer's scale into
`[0.05, 8]`; the attach defaults (`setBodyImage` fit-to-82%-of-canvas,
`setTattooImage` `max(0.08, 0.28·skinDisplayWidth/inkWidth)`) are not
clamped to that interval and can fall outside it. -/
theorem resizeGesture_scale_clamped (m : JsMath) (s : CState) (l : LayerName) (px py : ℚ)
    (hb : s.bodyImage.isNone = false)
    (hcrop : s.state.crop.active = false)
    (hsel : s.state.selectedLayer = some l)
    (hdrag : s.state.dragging = false)
    (hres : s.state.resizing = true)
    (hdist : 0 < m.hypot (s.state.dragStartX - (getLayerTransform s l).x)
        (s.state.dragStartY - (getLayerTransform s l).y)) :
    0.05 ≤ (getLayerTransform (onPointerMove m s px py) l).scale ∧
      (getLayerTransform (onPointerMove m s px py) l).scale ≤ 8 := by
  unfold onPointerMove
  simp only [hb, hcrop, hsel, hdrag, hres, Bool.false_eq_true, if_false, if_true]
  rw [if_pos hdist, getLayerTransform_render, getLayerTransform_set_same]
  constructor
  · exact le_min (by norm_num) (le_max_left _ _)
  · exact min_le_left _ _

/-- C3 amended witness: a concrete resize-gesture pointer move. -/
theorem resizeGesture_scale_clamped_witness :
    resizingState.bodyImage.isNone = false ∧
    resizingState.state.crop.active = false ∧
    resizingState.state.selectedLayer = some .body ∧
    resizingState.state.dragging = false ∧
    resizingState.state.resizing = true ∧
    (0 < jsMathOracle.hypot
        (resizingState.state.dragStartX - (getLayerTransform resizingState .body).x)
        (resizingState.state.dragStartY - (getLayerTransform resizingState .body).y)) ∧
    (0.05 ≤ (getLayerTransform (onPointerMove jsMathOracle resizingState 5 5) .body).scale ∧
      (getLayerTransform (onPointerMove jsMathOracle resizingState 5 5) .body).scale ≤ 8) :=
  ⟨rfl, rfl, rfl, rfl, rfl,
   by norm_num [jsMathOracle, resizingState, getLayerTransform, initialInteraction],
   resizeGesture_scale_clamped jsMathOracle resizingState .body 5 5 rfl rfl rfl rfl rfl
     (by norm_num [jsMathOracle, resizingState, getLayerTransform, initialInteraction])⟩

/-- C4 counterexample: `setBodyImage` — an operation other than `applyCrop`
— also changes the body layer's stored crop rectangle and its position in
the same call, refuting "applyCrop is the only operation that changes crop
and position together". -/
theorem cropPositionCoupling_counterexample :
    (step jsMathOracle croppedBodyState
        (.opSetBodyImage (grayImage 800 600) 900 560 700)).body.crop
        ≠ croppedBodyState.body.crop ∧
      (step jsMathOracle croppedBodyState
        (.opSetBodyImage (grayImage 800 600) 900 560 700)).body.x
        ≠ croppedBodyState.body.x := by
  dsimp only [step]
  unfold setBodyImage
  dsimp only
  rw [(setSelectedLayer_layersEq _ _ _).1]
  norm_num [croppedBodyState, resizeCanvasToContainer, nextCanvasSize, cancelCrop, render,
    emptyIntegrationCache, initialInteraction, initialTattoo, grayImage, jsMathOracle,
    min_def, max_def, Rect.mk.injEq,
    Option.isNone_none, Option.isNone_some, Option.isSome_none, Option.isSome_some]

/-- C4 amended: a confirmed `applyCrop` sets the cropped layer's position to
the midpoint of the confirmed workspace-space crop rectangle, and among the
public operations only `applyCrop` and the attach operations
(`setBodyImage`, `setTattooImage`) ever write a stored crop rectangle —
every other operation leaves both stored crops unchanged. -/
theorem applyCrop_recenters (m : JsMath) (s : CState) (l : LayerName) (cr : Rect)
    (ha : s.state.crop.active = true) (hl : s.state.crop.layer = some l)
    (hr : s.state.crop.rect = some cr) (himg : hasLayer s l = true) :
    (getLayerTransform (applyCrop m s).1 l).x = cr.x + cr.width / 2 ∧
    (getLayerTransform (applyCrop m s).1 l).y = cr.y + cr.height / 2 ∧
    (∀ (s2 : CState) (op : Op), op.writesCrop = false →
      (step m s2 op).body.crop = s2.body.crop ∧
        (step m s2 op).tattoo.crop = s2.tattoo.crop) := by
  refine ⟨?_, ?_, ?_⟩
  · cases l with
    | body =>
      unfold applyCrop getLayerBounds
      simp only [ha, hl, hr, himg, eq_self_iff_true, if_true]
      rw [getLayerTransform_render]
      rfl
    | tattoo =>
      unfold applyCrop getLayerBounds
      simp only [ha, hl, hr, himg, eq_self_iff_true, if_true]
      rw [getLayerTransform_render]
      rfl
  · cases l with
    | body =>
      unfold applyCrop getLayerBounds
      simp only [ha, hl, hr, himg, eq_self_iff_true, if_true]
      rw [getLayerTransform_render]
      rfl
    | tattoo =>
      unfold applyCrop getLayerBounds
      simp only [ha, hl, hr, himg, eq_self_iff_true, if_true]
      rw [getLayerTransform_render]
      rfl
  · intro s2 op hop
    cases op with
    | opSetBodyImage img cw ch ih => exact nomatch hop
    | opSetTattooImage img => exact nomatch hop
    | opApplyCrop => exact nomatch hop
    | opSetOpacity v => exact (setOpacity_imagesCropsEq m s2 v).2
    | opSetRotation v => exact (setRotation_imagesCropsEq m s2 v).2
    | opRemoveTattoo => exact (removeTattoo_effects m s2).2.2
    | opClear => exact (clear_effects m s2).2.2
    | opCancelCrop => exact (cancelCrop_layersEq m s2).cropsEq
    | opBeginCrop lb => exact (beginCrop_layersEq m s2 lb).cropsEq
    | opSetSelectedLayer ls => exact (setSelectedLayer_layersEq m s2 ls).cropsEq
    | opPointerDown x y => exact (onPointerDown_layersEq m s2 x y).cropsEq
    | opPointerMove x y => exact (onPointerMove_imagesCropsEq m s2 x y).2
    | opPointerUp => exact (onPointerUp_layersEq s2).cropsEq
    | opResizeCanvas cw ch ih => exact (resizeCanvas_imagesCropsEq m s2 cw ch ih).2
    | opExportImage => exact (exportImage_layersEq m s2).cropsEq

/-- C4 amended witness at the concrete mid-crop state. -/
theorem applyCrop_recenters_witness :
    cropEdgeState.state.crop.active = true ∧
    cropEdgeState.state.crop.layer = some .body ∧
    cropEdgeState.state.crop.rect = some { x := 7976, y := 0, width := 24, height := 8000 } ∧
    hasLayer cropEdgeState .body = true ∧
    ((getLayerTransform (applyCrop jsMathOracle cropEdgeState).1 .body).x = 7976 + 24 / 2 ∧
      (getLayerTransform (applyCrop jsMathOracle cropEdgeState).1 .body).y = 0 + 8000 / 2 ∧
      (∀ (s2 : CState) (op : Op), op.writesCrop = false →
        (step jsMathOracle s2 op).body.crop = s2.body.crop ∧
          (step jsMathOracle s2 op).tattoo.crop = s2.tattoo.crop)) :=
  ⟨rfl, rfl, rfl, rfl,
   applyCrop_recenters jsMathOracle cropEdgeState .body
     { x := 7976, y := 0, width := 24, height := 8000 } rfl rfl rfl rfl⟩

/-- C5: a workspace resize with ratios `rx = newWidth/oldWidth`,
`ry = newHeight/oldHeight` scales each attached layer's position
component-wise by `(rx, ry)` and multiplies its scale by `min(rx, ry)`; a
layer that is not attached is left completely unchanged. -/
theorem resizeCanvas_rescales (m : JsMath) (s : CState) (cw ch ih : ℚ)
    (hw : s.canvasWidth ≠ 0) (hh : s.canvasHeight ≠ 0) :
    (s.bodyImage.isSome = true →
        (resizeCanvasToContainer m s cw ch ih).body.x
          = s.body.x * ((resizeCanvasToContainer m s cw ch ih).canvasWidth / s.canvasWidth) ∧
        (resizeCanvasToContainer m s cw ch ih).body.y
          = s.body.y * ((resizeCanvasToContainer m s cw ch ih).canvasHeight / s.canvasHeight) ∧
        (resizeCanvasToContainer m s cw ch ih).body.scale
          = s.body.scale *
              min ((resizeCanvasToContainer m s cw ch ih).canvasWidth / s.canvasWidth)
                ((resizeCanvasToContainer m s cw ch ih).canvasHeight / s.canvasHeight)) ∧
    (s.bodyImage = none → (resizeCanvasToContainer m s cw ch ih).body = s.body) ∧
    (s.tattooImage.isSome = true →
        (resizeCanvasToContainer m s cw ch ih).tattoo.x
          = s.tattoo.x * ((resizeCanvasToContainer m s cw ch ih).canvasWidth / s.canvasWidth) ∧
        (resizeCanvasToContainer m s cw ch ih).tattoo.y
          = s.tattoo.y * ((resizeCanvasToContainer m s cw ch ih).canvasHeight / s.canvasHeight) ∧
        (resizeCanvasToContainer m s cw ch ih).tattoo.scale
          = s.tattoo.scale *
              min ((resizeCanvasToContainer m s cw ch ih).canvasWidth / s.canvasWidth)
                ((resizeCanvasToContainer m s cw ch ih).canvasHeight / s.canvasHeight)) ∧
    (s.tattooImage = none → (resizeCanvasToContainer m s cw ch ih).tattoo = s.tattoo) := by
  unfold resizeCanvasToContainer
  dsimp only
  by_cases hc : ((nextCanvasSize cw ch ih).1 = s.canvasWidth ∧
      (nextCanvasSize cw ch ih).2 = s.canvasHeight)
  · rw [if_pos hc]
    refine ⟨fun _ => ⟨?_, ?_, ?_⟩, fun _ => rfl, fun _ => ⟨?_, ?_, ?_⟩, fun _ => rfl⟩
    · rw [div_self hw, mul_one]
    · rw [div_self hh, mul_one]
    · rw [div_self hw, div_self hh, min_self, mul_one]
    · rw [div_self hw, mul_one]
    · rw [div_self hh, mul_one]
    · rw [div_self hw, div_self hh, min_self, mul_one]
  · rw [if_neg hc]
    rw [(render_layersEq m _).1, (render_layersEq m _).2.1,
      (render_layersEq m _).2.2.2.2.1, (render_layersEq m _).2.2.2.2.2]
    simp only [apply_ite CState.body, apply_ite CState.tattoo, apply_ite CState.canvasWidth,
      apply_ite CState.canvasHeight, apply_ite CState.bodyImage, apply_ite CState.tattooImage,
      ite_self]
    refine ⟨fun hb => ?_, fun hb => ?_, fun ht => ?_, fun ht => ?_⟩
    · rw [if_pos hb]
      exact ⟨rfl, rfl, rfl⟩
    · rw [if_neg (by rw [hb]; simp)]
    · rw [if_pos ht]
      exact ⟨rfl, rfl, rfl⟩
    · rw [if_neg (by rw [ht]; simp)]

/-- C5 witness: a concrete resize from a 900×560 canvas to a 1200×660
container with a skin attached and no ink attached. -/
theorem resizeCanvas_rescales_witness :
    attachedBodyState.canvasWidth ≠ 0 ∧ attachedBodyState.canvasHeight ≠ 0 ∧
    ((attachedBodyState.bodyImage.isSome = true →
        (resizeCanvasToContainer jsMathOracle attachedBodyState 1200 660 700).body.x
          = attachedBodyState.body.x *
            ((resizeCanvasToContainer jsMathOracle attachedBodyState 1200 660 700).canvasWidth /
              attachedBodyState.canvasWidth) ∧
        (resizeCanvasToContainer jsMathOracle attachedBodyState 1200 660 700).body.y
          = attachedBodyState.body.y *
            ((resizeCanvasToContainer jsMathOracle attachedBodyState 1200 660 700).canvasHeight /
              attachedBodyState.canvasHeight) ∧
        (resizeCanvasToContainer jsMathOracle attachedBodyState 1200 660 700).body.scale
          = attachedBodyState.body.scale *
              min ((resizeCanvasToContainer jsMathOracle attachedBodyState
                  1200 660 700).canvasWidth / attachedBodyState.canvasWidth)
                ((resizeCanvasToContainer jsMathOracle attachedBodyState
                  1200 660 700).canvasHeight / attachedBodyState.canvasHeight)) ∧
      (attachedBodyState.bodyImage = none →
        (resizeCanvasToContainer jsMathOracle attachedBodyState 1200 660 700).body
          = attachedBodyState.body) ∧
      (attachedBodyState.tattooImage.isSome = true →
        (resizeCanvasToContainer jsMathOracle attachedBodyState 1200 660 700).tattoo.x
          = attachedBodyState.tattoo.x *
            ((resizeCanvasToContainer jsMathOracle attachedBodyState 1200 660 700).canvasWidth /
              attachedBodyState.canvasWidth) ∧
        (resizeCanvasToContainer jsMathOracle attachedBodyState 1200 660 700).tattoo.y
          = attachedBodyState.tattoo.y *
            ((resizeCanvasToContainer jsMathOracle attachedBodyState 1200 660 700).canvasHeight /
              attachedBodyState.canvasHeight) ∧
        (resizeCanvasToContainer jsMathOracle attachedBodyState 1200 660 700).tattoo.scale
          = attachedBodyState.tattoo.scale *
              min ((resizeCanvasToContainer jsMathOracle attachedBodyState
                  1200 660 700).canvasWidth / attachedBodyState.canvasWidth)
                ((resizeCanvasToContainer jsMathOracle attachedBodyState
                  1200 660 700).canvasHeight / attachedBodyState.canvasHeight)) ∧
      (attachedBodyState.tattooImage = none →
        (resizeCanvasToContainer jsMathOracle attachedBodyState 1200 660 700).tattoo
          = attachedBodyState.tattoo)) :=
  ⟨by norm_num [attachedBodyState], by norm_num [attachedBodyState],
   resizeCanvas_rescales jsMathOracle attachedBodyState 1200 660 700
     (by norm_num [attachedBodyState]) (by norm_num [attachedBodyState])⟩

/-- `BodyRefArg.resolve` ignores the integration cache. -/
theorem resolve_cache_irrel (s : CState) (c : IntegrationCache) (arg : BodyRefArg) :
    BodyRefArg.resolve { s with integrationCache := c } arg = arg.resolve s := by
  cases arg <;> rfl

/-- `getBodySamplingRect` ignores the integration cache. -/
theorem getBodySamplingRect_cache_irrel (s : CState) (c : IntegrationCache) (img : Image)
    (t : TattooTransform) (arg : BodyRefArg) :
    getBodySamplingRect { s with integrationCache := c } img t arg
      = getBodySamplingRect s img t arg := by
  cases arg <;> rfl

/-- `integrationKeyOf` ignores the integration cache. -/
theorem integrationKeyOf_cache_irrel (s : CState) (c : IntegrationCache) (img : Image)
    (t : TattooTransform) (arg : BodyRefArg) :
    integrationKeyOf { s with integrationCache := c } img t arg
      = integrationKeyOf s img t arg := by
  unfold integrationKeyOf
  rw [getBodySamplingRect_cache_irrel]

/-- The branch structure of `getIntegrationMap` with the skin attached and
a nondegenerate body reference: a cache hit on the quantized key returns
the cache untouched, anything else computes a fresh entry. -/
theorem getIntegrationMap_eq (m : JsMath) (s : CState) (t : TattooTransform)
    (arg : BodyRefArg) (img : Image) (hb : s.bodyImage = some img)
    (hs : ¬ (arg.resolve s).scale ≤ 0) :
    getIntegrationMap m s t arg =
      if s.integrationCache.key = some (integrationKeyOf s img t arg) ∧
          s.integrationCache.map.isSome = true then
        (s.integrationCache, s.integrationCache, false)
      else
        (integrationEntryOf m s img t arg, integrationEntryOf m s img t arg, true) := by
  unfold getIntegrationMap
  rw [hb]
  dsimp only
  rw [if_neg hs]
  rfl

/-- After any `getIntegrationMap` call (skin attached, nondegenerate body
reference), the stored cache entry carries the quantized key of the call's
inputs and a map. -/
theorem getIntegrationMap_result_key (m : JsMath) (s : CState) (t : TattooTransform)
    (arg : BodyRefArg) (img : Image) (hb : s.bodyImage = some img)
    (hs : ¬ (arg.resolve s).scale ≤ 0) :
    (getIntegrationMap m s t arg).2.1.key = some (integrationKeyOf s img t arg) ∧
      (getIntegrationMap m s t arg).2.1.map.isSome = true := by
  rw [getIntegrationMap_eq m s t arg img hb hs]
  split
  · next h => exact ⟨h.1, h.2⟩
  · exact ⟨rfl, rfl⟩

/-- C6: after any `getIntegrationMap` call with the skin attached and a
nondegenerate body reference, a second consecutive call whose quantized
cache key is unchanged — and for which the cached map therefore exists —
performs no recomputation (`false` recompute flag) and returns the stored
cache entry unchanged. -/
theorem getIntegrationMap_second_call_hit (m : JsMath) (s : CState)
    (t1 t2 : TattooTransform) (arg1 arg2 : BodyRefArg) (img : Image)
    (hb : s.bodyImage = some img)
    (hs1 : ¬ (arg1.resolve s).scale ≤ 0) (hs2 : ¬ (arg2.resolve s).scale ≤ 0)
    (hkeyeq : integrationKeyOf s img t2 arg2 = integrationKeyOf s img t1 arg1) :
    getIntegrationMap m { s with integrationCache := (getIntegrationMap m s t1 arg1).2.1 }
        t2 arg2
      = ((getIntegrationMap m s t1 arg1).2.1, (getIntegrationMap m s t1 arg1).2.1, false) := by
  have hkey := getIntegrationMap_result_key m s t1 arg1 img hb hs1
  rw [getIntegrationMap_eq m
    { s with integrationCache := (getIntegrationMap m s t1 arg1).2.1 } t2 arg2 img hb
    (by rw [resolve_cache_irrel]; exact hs2)]
  rw [if_pos ⟨by rw [integrationKeyOf_cache_irrel, hkeyeq]; exact hkey.1, hkey.2⟩]

/-- C6 witness at a concrete attached state: discharging the hypotheses at
a concrete skin image, ink transform and live body reference. -/
theorem getIntegrationMap_second_call_hit_witness :
    attachedBodyState.bodyImage = some (grayImage 500 400) ∧
    ¬ (BodyRefArg.current.resolve attachedBodyState).scale ≤ 0 ∧
    integrationKeyOf attachedBodyState (grayImage 500 400) unitInkTransform .current
      = integrationKeyOf attachedBodyState (grayImage 500 400) unitInkTransform .current ∧
    getIntegrationMap jsMathOracle
        { attachedBodyState with integrationCache :=
            (getIntegrationMap jsMathOracle attachedBodyState unitInkTransform .current).2.1 }
        unitInkTransform .current
      = ((getIntegrationMap jsMathOracle attachedBodyState unitInkTransform .current).2.1,
         (getIntegrationMap jsMathOracle attachedBodyState unitInkTransform .current).2.1,
         false) :=
  ⟨rfl, by norm_num [BodyRefArg.resolve, attachedBodyState], rfl,
   getIntegrationMap_second_call_hit jsMathOracle attachedBodyState
     unitInkTransform unitInkTransform .current .current (grayImage 500 400) rfl
     (by norm_num [BodyRefArg.resolve, attachedBodyState])
     (by norm_num [BodyRefArg.resolve, attachedBodyState]) rfl⟩

end TBG
